import Mathlib

/-!
Verification of the domharvest-playwright orchestration engine.

A shallow embedding of the harvesting engine documented in this repository:
the declarative extraction DSL, the error taxonomy, the harvest pipeline
(navigate → wait-for-selector → extract), the retry controller, the batch
scheduler and the token-bucket rate limiter, together with theorems settling
the behavioural claims about them.
-/

namespace DomHarvest

/-- A JSON-like extraction result value, as produced by extractors running in
the browser context (`null`, booleans, numbers, strings, arrays, objects). -/
inductive Value where
  | null
  | bool (b : Bool)
  | num (n : Int)
  | str (s : String)
  | arr (xs : List Value)
  | obj (fields : List (String × Value))
  deriving Repr, BEq

/-- A DOM element as seen by extractors: tag name, attributes, text content
and inner HTML.  Selector queries against the live DOM are abstracted as a
query function `String → Elem → List Elem` (matches in document order). -/
structure Elem where
  tagName : String
  attrs : List (String × String)
  textContent : String
  innerHTML : String
  deriving Repr, BEq

/-- A selector query against the rendered page: given a CSS selector and a
current element, the list of matching elements relative to it, in document
order.  The DOM query primitive itself belongs to the browser driver. -/
abbrev Query := String → Elem → List Elem

/-- Modelled from the spec: the ExtractionNode tree of the declarative DSL
(`text`/`attr`/`html`/`exists`/`count` leaves, `array`, nested objects, and
host-side custom extractor functions).  The DSL helpers are documented in the
guide; their evaluation semantics (relative matching, defaults, trimming) is
not shipped in this repository and is modelled from the spec. -/
inductive DSLNode where
  | text (selector : Option String) (trim : Bool) (dflt : Option Value)
  | attr (selector : String) (name : String) (dflt : Option Value)
  | htmlLeaf (selector : Option String) (dflt : Option Value)
  | existsLeaf (selector : String)
  | countLeaf (selector : String)
  | arrayOf (selector : String) (child : DSLNode)
  | objectOf (fields : List (String × DSLNode))
  | custom (f : Elem → Value)

/-- Text read from an element, optionally trimmed (`trim: true` is the
documented default for the `text()` helper). -/
def readText (trim : Bool) (e : Elem) : Value :=
  .str (if trim then e.textContent.trim else e.textContent)

mutual

/-- Modelled from the spec: evaluation of a DSL node against a current
element.  A leaf with an empty selector reads the current element itself; a
leaf whose selector matches nothing yields its configured default (`null`
unless given); `exists` yields a strict boolean; `count` the number of
matches (0 when none); `array` maps its child over all matches in document
order; objects preserve declaration order; `custom` calls the host
function. -/
def resolve (q : Query) : DSLNode → Elem → Value
  | .text none trim _, el => readText trim el
  | .text (some s) trim dflt, el =>
      match q s el with
      | [] => dflt.getD .null
      | e :: _ => readText trim e
  | .attr s name dflt, el =>
      match q s el with
      | [] => dflt.getD .null
      | e :: _ =>
          match e.attrs.lookup name with
          | none => dflt.getD .null
          | some v => .str v
  | .htmlLeaf none _, el => .str el.innerHTML
  | .htmlLeaf (some s) dflt, el =>
      match q s el with
      | [] => dflt.getD .null
      | e :: _ => .str e.innerHTML
  | .existsLeaf s, el => .bool (!(q s el).isEmpty)
  | .countLeaf s, el => .num ((q s el).length : Int)
  | .arrayOf s child, el => .arr (resolveEach q child (q s el))
  | .objectOf fields, el => .obj (resolveFields q fields el)
  | .custom f, el => f el

/-- Evaluation of an array node's child over each matched element, keeping
document order. -/
def resolveEach (q : Query) (child : DSLNode) : List Elem → List Value
  | [] => []
  | e :: es => resolve q child e :: resolveEach q child es

/-- Evaluation of an object node's entries, keeping schema declaration
order. -/
def resolveFields (q : Query) : List (String × DSLNode) → Elem → List (String × Value)
  | [], _ => []
  | (k, n) :: rest, el => (k, resolve q n el) :: resolveFields q rest el

end

/-- The classified-error taxonomy exported to callers, with the properties
documented for each class: `TimeoutError` carries the url, the selector when
one is involved, the operation that timed out and the original cause;
`NavigationError` carries url, operation and cause (no selector property);
`ExtractionError` carries url, the selector used, the operation and the
cause. -/
inductive ClassifiedError where
  | timeout (url : String) (selector : Option String) (operation : String) (cause : String)
  | navigation (url : String) (operation : String) (cause : String)
  | extraction (url : String) (selector : String) (operation : String) (cause : String)
  deriving Repr, DecidableEq

namespace ClassifiedError

/-- The `name` property of the error class. -/
def name : ClassifiedError → String
  | .timeout .. => "TimeoutError"
  | .navigation .. => "NavigationError"
  | .extraction .. => "ExtractionError"

/-- The `url` property: the target being accessed when the failure arose. -/
def url : ClassifiedError → String
  | .timeout u .. => u
  | .navigation u .. => u
  | .extraction u .. => u

/-- The `operation` property. -/
def operation : ClassifiedError → String
  | .timeout _ _ op _ => op
  | .navigation _ op _ => op
  | .extraction _ _ op _ => op

/-- The `cause` property: the original underlying error. -/
def cause : ClassifiedError → String
  | .timeout _ _ _ c => c
  | .navigation _ _ c => c
  | .extraction _ _ _ c => c

/-- The `selector` property, absent on `NavigationError` and on timeouts not
involving a selector. -/
def selectorField : ClassifiedError → Option String
  | .timeout _ s _ _ => s
  | .navigation .. => none
  | .extraction _ s _ _ => some s

/-- The `message` property: a descriptive message derived from the failure
context. -/
def message (e : ClassifiedError) : String :=
  e.operation ++ " failed for " ++ e.url

end ClassifiedError

/-- Outcome of the browser driver's `goto` call for one attempt. -/
inductive NavOutcome where
  | ok
  | navTimeout (cause : String)
  | navFail (cause : String)
  deriving Repr, DecidableEq

/-- Observable behaviour of the rendered page for one harvest attempt: how
navigation ends, which elements match the root selector (document order),
and whether in-browser evaluation of the extractor raises. -/
structure PageBehavior where
  nav : NavOutcome
  rootMatches : List Elem
  evalFailure : Option String
  deriving Repr

/-- The default extractor used by `harvest` when none is supplied: for each
element, `{ text: element.textContent?.trim(), html: element.innerHTML,
tag: element.tagName.toLowerCase() }`. -/
def defaultExtract (el : Elem) : Value :=
  .obj [("text", .str el.textContent.trim),
        ("html", .str el.innerHTML),
        ("tag", .str el.tagName.toLower)]

/-- One `harvest(url, selector, extractor)` attempt, following the
implementation: `goto` the url (navigation failures classified as
`TimeoutError`/`NavigationError`), then `waitForSelector(selector)` — which
times out when the selector matches no element, raising a `TimeoutError`
carrying the selector — then `$$eval` of the extractor over all matches
(evaluation failures classified as `ExtractionError`). -/
def harvestAttempt (url selector : String) (extractor : Option (Elem → Value))
    (pb : PageBehavior) : Except ClassifiedError (List Value) :=
  match pb.nav with
  | .navTimeout c => .error (.timeout url none "navigation" c)
  | .navFail c => .error (.navigation url "navigation" c)
  | .ok =>
      match pb.rootMatches with
      | [] => .error (.timeout url (some selector) "waitForSelector" "Timeout exceeded")
      | _ =>
          match pb.evalFailure with
          | some c => .error (.extraction url selector "extraction" c)
          | none => .ok (pb.rootMatches.map (extractor.getD defaultExtract))

/-- One `harvestCustom(url, pageFunction)` attempt: navigate, then evaluate
the page function in the browser context; evaluation failures are classified
as `ExtractionError` (no element selector is involved). -/
def harvestCustomAttempt (url : String) (pageFn : Unit → Value)
    (nav : NavOutcome) (evalFailure : Option String) : Except ClassifiedError Value :=
  match nav with
  | .navTimeout c => .error (.timeout url none "navigation" c)
  | .navFail c => .error (.navigation url "navigation" c)
  | .ok =>
      match evalFailure with
      | some c => .error (.extraction url "" "evaluation" c)
      | none => .ok (pageFn ())

/-- One `screenshot(url, …)` attempt: navigate, optionally wait for a
configured selector (a wait that never sees the selector raises a
`TimeoutError` carrying that selector), then capture; navigation and capture
failures are classified as `NavigationError`. -/
def screenshotAttempt (url : String) (waitSel : Option String)
    (nav : NavOutcome) (selAppears : Bool) (captureFailure : Option String) :
    Except ClassifiedError (List Nat) :=
  match nav with
  | .navTimeout c => .error (.timeout url none "navigation" c)
  | .navFail c => .error (.navigation url "navigation" c)
  | .ok =>
      match waitSel with
      | some s =>
          if selAppears then
            match captureFailure with
            | some c => .error (.navigation url "screenshot" c)
            | none => .ok []
          else .error (.timeout url (some s) "waitForSelector" "Timeout exceeded")
      | none =>
          match captureFailure with
          | some c => .error (.navigation url "screenshot" c)
          | none => .ok []

/-- Whether a classified error is eligible for retry: when a `retryOn`
allow-list of error names is given, only those names are retryable; when it
is absent, every classified error is retryable. -/
def retryable (retryOn : Option (List String)) (e : ClassifiedError) : Bool :=
  match retryOn with
  | none => true
  | some names => names.contains e.name

/-- Modelled from the spec: the Retry Controller (`options.retries`,
`options.retryOn`), whose implementation is not shipped in this repository.
`op k` is the `k`-th invocation (0-based) of the wrapped operation.  The
controller runs the operation; a success returns immediately; a classified
error is re-raised unchanged when it is not retryable or the retry budget is
spent, and otherwise the operation is retried after the backoff delay.
Returns the outcome together with the total number of invocations made. -/
def retryRunCount {α : Type} (op : Nat → Except ClassifiedError α)
    (retryOn : Option (List String)) :
    Nat → Nat → Except ClassifiedError α × Nat
  | budget, k =>
      match op k with
      | .ok v => (.ok v, 1)
      | .error e =>
          match budget with
          | 0 => (.error e, 1)
          | b + 1 =>
              if retryable retryOn e then
                let (r, n) := retryRunCount op retryOn b (k + 1)
                (r, n + 1)
              else (.error e, 1)

/-- One per-item configuration of a `harvestBatch` call. -/
structure BatchConfig where
  url : String
  selector : String
  extractor : Option (Elem → Value)

/-- A `harvestBatch` result record, with the documented fields: `success`,
`url`, `duration` (ms), `data` when successful, `error` message and
`errorName` when failed. -/
structure BatchResult where
  success : Bool
  url : String
  duration : Nat
  data : Option (List Value)
  error : Option String
  errorName : Option String

/-- The terminal result record for one batch item: the extracted data and
duration on success, or the error message and error name and duration on
failure. -/
def toResult (cfg : BatchConfig)
    (out : Except ClassifiedError (List Value) × Nat) : BatchResult :=
  match out with
  | (.ok d, dur) =>
      { success := true, url := cfg.url, duration := dur,
        data := some d, error := none, errorName := none }
  | (.error e, dur) =>
      { success := false, url := cfg.url, duration := dur,
        data := none, error := some e.message, errorName := some e.name }

/-- Modelled from the spec: the Batch Scheduler's caller-visible result list
(`harvestBatch`), whose implementation is not shipped in this repository.
`run` gives each item's terminal outcome (after that item's own retries)
with its duration; every item yields a record, one item's failure never
skips another, and the result list is aligned one-to-one with the input
configuration order even though completion order may differ internally. -/
def harvestBatch (configs : List BatchConfig)
    (run : BatchConfig → Except ClassifiedError (List Value) × Nat) :
    List BatchResult :=
  configs.map fun c => toResult c (run c)

/-- Modelled from the spec: the Batch Scheduler's progress reporting, whose
implementation is not shipped in this repository.  The scheduler keeps a
completed counter; after each item reaches a terminal state (in completion
order, an arbitrary interleaving of the input items) the counter is
incremented and `onProgress(completed, total)` fires once.  The value is the
list of `(completed, total)` arguments passed, in invocation order. -/
def progressEvents (completionOrder : List Nat) (total : Nat) :
    List (Nat × Nat) :=
  (completionOrder.foldl
    (fun (acc : Nat × List (Nat × Nat)) _ =>
      (acc.1 + 1, acc.2 ++ [(acc.1 + 1, total)]))
    (0, [])).2

/-- Modelled from the spec: the token-bucket state of the rate limiter
(`rateLimit: {requests, per}`), whose implementation is not shipped in this
repository.  Tokens accrue continuously at `refillRate` per millisecond up
to `capacity`; `tokens` is the balance as of `lastRefill`. -/
structure Bucket where
  capacity : ℚ
  refillRate : ℚ
  tokens : ℚ
  lastRefill : ℚ

/-- Lazy continuous-time refill at an acquire call: tokens accrued over the
elapsed time since the last refill, capped at capacity. -/
def Bucket.refill (b : Bucket) (now : ℚ) : Bucket :=
  { b with
    tokens := min b.capacity (b.tokens + (now - b.lastRefill) * b.refillRate),
    lastRefill := now }

/-- One admission check at time `now`: refill, then, when a whole token is
available, atomically spend it and admit; otherwise the caller suspends
(`none`) and re-attempts later — acquire never fails, backpressure is pure
suspension. -/
def Bucket.tryAcquire (b : Bucket) (now : ℚ) : Option Bucket :=
  let b' := b.refill now
  if 1 ≤ b'.tokens then some { b' with tokens := b'.tokens - 1 } else none

/-- `n` back-to-back admission checks at the same instant, each consuming
the state the previous one left; `none` as soon as one of them suspends. -/
def Bucket.tryAcquireMany (b : Bucket) (now : ℚ) : Nat → Option Bucket
  | 0 => some b
  | n + 1 => (b.tryAcquire now).bind fun b' => b'.tryAcquireMany now n

/-- A bucket of capacity `c`, starting full at time 0, refilling at `rate`
tokens per millisecond. -/
def fullBucket (c : ℕ) (rate : ℚ) : Bucket :=
  { capacity := (c : ℚ), refillRate := rate, tokens := (c : ℚ), lastRefill := 0 }

/-! ## Claims -/

/-- C6: for every selector that matches no elements relative to the current
element, a `count` node evaluates to the integer 0 and an `array` node
evaluates to an empty ordered sequence — in both cases never `null` (and the
evaluator raises no error: it is a total function). -/
theorem count_array_empty_claim (q : Query) (s : String) (el : Elem)
    (child : DSLNode) (h : q s el = []) :
    resolve q (.countLeaf s) el = .num 0 ∧
    resolve q (.arrayOf s child) el = .arr [] ∧
    resolve q (.countLeaf s) el ≠ .null ∧
    resolve q (.arrayOf s child) el ≠ .null := by
  refine ⟨?_, ?_, ?_, ?_⟩ <;> simp [resolve, resolveEach, h]

/-- Witness for C6 at a concrete query and element. -/
theorem count_array_empty_claim_witness :
    resolve (fun _ _ => []) (.countLeaf "li") ⟨"body", [], "", ""⟩ = .num 0 ∧
    resolve (fun _ _ => []) (.arrayOf "li" (.text none true none))
      ⟨"body", [], "", ""⟩ = .arr [] :=
  ⟨(count_array_empty_claim (fun _ _ => []) "li" ⟨"body", [], "", ""⟩
      (.text none true none) rfl).1,
   (count_array_empty_claim (fun _ _ => []) "li" ⟨"body", [], "", ""⟩
      (.text none true none) rfl).2.1⟩

/-- C7: for a `text` node whose selector matches no element, the result is
exactly `null` when no default is configured, and exactly `'x'` when
`default: 'x'` is configured. -/
theorem text_default_claim (q : Query) (s : String) (el : Elem)
    (trim : Bool) (h : q s el = []) :
    resolve q (.text (some s) trim none) el = .null ∧
    resolve q (.text (some s) trim (some (.str "x"))) el = .str "x" := by
  constructor <;> simp [resolve, h]

/-- Witness for C7 at a concrete query and element. -/
theorem text_default_claim_witness :
    resolve (fun _ _ => []) (.text (some ".title") true none)
      ⟨"body", [], "", ""⟩ = .null ∧
    resolve (fun _ _ => []) (.text (some ".title") true (some (.str "x")))
      ⟨"body", [], "", ""⟩ = .str "x" :=
  text_default_claim (fun _ _ => []) ".title" ⟨"body", [], "", ""⟩ true rfl

/-- C9: when navigation succeeds but the root selector matches zero
elements, `harvest` does not return an empty list: the wait for the selector
times out and the call raises a `TimeoutError` (carrying the url and the
selector). -/
theorem missing_selector_timeout_claim (url sel : String)
    (ex : Option (Elem → Value)) (pb : PageBehavior)
    (hn : pb.nav = .ok) (hm : pb.rootMatches = []) :
    harvestAttempt url sel ex pb =
      .error (.timeout url (some sel) "waitForSelector" "Timeout exceeded") ∧
    ∀ l, harvestAttempt url sel ex pb ≠ .ok l := by
  have h : harvestAttempt url sel ex pb =
      .error (.timeout url (some sel) "waitForSelector" "Timeout exceeded") := by
    simp [harvestAttempt, hn, hm]
  exact ⟨h, fun l hl => by rw [h] at hl; cases hl⟩

/-- Witness for C9 at a concrete page behaviour. -/
theorem missing_selector_timeout_claim_witness :
    harvestAttempt "https://example.com" ".missing" none ⟨.ok, [], none⟩ =
      .error (.timeout "https://example.com" (some ".missing")
        "waitForSelector" "Timeout exceeded") :=
  (missing_selector_timeout_claim "https://example.com" ".missing" none
    ⟨.ok, [], none⟩ rfl rfl).1

/-- C10: when no extractor is supplied and the attempt succeeds, each
matched element yields exactly the record `{text: trimmed textContent,
html: innerHTML, tag: lower-cased tag name}`. -/
theorem default_extractor_claim (url sel : String) (pb : PageBehavior)
    (hn : pb.nav = .ok) (he : pb.evalFailure = none)
    (hm : pb.rootMatches ≠ []) :
    harvestAttempt url sel none pb =
      .ok (pb.rootMatches.map fun el =>
        .obj [("text", .str el.textContent.trim),
              ("html", .str el.innerHTML),
              ("tag", .str el.tagName.toLower)]) := by
  cases hml : pb.rootMatches with
  | nil => exact absurd hml hm
  | cons a l =>
      simp [harvestAttempt, hn, he, hml, defaultExtract]

/-- Witness for C10 at a concrete page with one matched element. -/
theorem default_extractor_claim_witness :
    harvestAttempt "https://example.com" "h1" none
      ⟨.ok, [⟨"H1", [], "  Hello  ", "Hello"⟩], none⟩ =
      .ok [.obj [("text", .str "  Hello  ".trim), ("html", .str "Hello"),
                 ("tag", .str "H1".toLower)]] := by
  have h := default_extractor_claim "https://example.com" "h1"
    ⟨.ok, [⟨"H1", [], "  Hello  ", "Hello"⟩], none⟩ rfl rfl (by simp)
  simpa using h

/-- C2: every error raised to the caller by `harvest`, `harvestCustom` or
`screenshot` is one of exactly three kinds — `TimeoutError`,
`NavigationError`, `ExtractionError` — and carries the target url, an
operation and the underlying cause; extraction errors expose the selector
used, and the error raised when a selector wait fails exposes that
selector. -/
theorem error_surface_claim :
    (∀ url sel ex pb e, harvestAttempt url sel ex pb = .error e →
      (e.name = "TimeoutError" ∨ e.name = "NavigationError" ∨
        e.name = "ExtractionError") ∧ e.url = url) ∧
    (∀ url f nav ev e, harvestCustomAttempt url f nav ev = .error e →
      (e.name = "TimeoutError" ∨ e.name = "NavigationError" ∨
        e.name = "ExtractionError") ∧ e.url = url) ∧
    (∀ url ws nav sa cf e, screenshotAttempt url ws nav sa cf = .error e →
      (e.name = "TimeoutError" ∨ e.name = "NavigationError" ∨
        e.name = "ExtractionError") ∧ e.url = url) ∧
    (∀ url sel ex pb e, harvestAttempt url sel ex pb = .error e →
      e.name = "ExtractionError" → e.selectorField = some sel) ∧
    (∀ url sel ex pb e, harvestAttempt url sel ex pb = .error e →
      e.operation = "waitForSelector" → e.selectorField = some sel) ∧
    (∀ url ws nav sa cf e, screenshotAttempt url ws nav sa cf = .error e →
      e.operation = "waitForSelector" → e.selectorField = ws) := by
  refine ⟨?_, ?_, ?_, ?_, ?_, ?_⟩
  · rintro url sel ex ⟨nav, ms, ev⟩ e h
    cases nav <;> cases ms <;> cases ev <;>
      simp_all [harvestAttempt] <;>
      (subst h; simp [ClassifiedError.name, ClassifiedError.url])
  · rintro url f nav ev e h
    cases nav <;> cases ev <;>
      simp_all [harvestCustomAttempt] <;>
      (subst h; simp [ClassifiedError.name, ClassifiedError.url])
  · rintro url ws nav sa cf e h
    cases nav <;> cases ws <;> cases sa <;> cases cf <;>
      simp_all [screenshotAttempt] <;>
      (subst h; simp [ClassifiedError.name, ClassifiedError.url])
  · rintro url sel ex ⟨nav, ms, ev⟩ e h hname
    cases nav <;> cases ms <;> cases ev <;>
      simp_all [harvestAttempt] <;> subst h <;>
      simp_all [ClassifiedError.name, ClassifiedError.selectorField]
  · rintro url sel ex ⟨nav, ms, ev⟩ e h hop
    cases nav <;> cases ms <;> cases ev <;>
      simp_all [harvestAttempt] <;> subst h <;>
      simp_all [ClassifiedError.operation, ClassifiedError.selectorField]
  · rintro url ws nav sa cf e h hop
    cases nav <;> cases ws <;> cases sa <;> cases cf <;>
      simp_all [screenshotAttempt] <;> subst h <;>
      simp_all [ClassifiedError.operation, ClassifiedError.selectorField]

/-- Witness for C2 at a concrete failing navigation. -/
theorem error_surface_claim_witness :
    ((ClassifiedError.navigation "u" "navigation" "dns").name = "TimeoutError" ∨
     (ClassifiedError.navigation "u" "navigation" "dns").name = "NavigationError" ∨
     (ClassifiedError.navigation "u" "navigation" "dns").name = "ExtractionError") ∧
    (ClassifiedError.navigation "u" "navigation" "dns").url = "u" :=
  error_surface_claim.1 "u" ".c" none ⟨.navFail "dns", [], none⟩
    (.navigation "u" "navigation" "dns") rfl

/-- C3: for an operation failing on its first two invocations and succeeding
on the third, the retry controller with `retries: 3` invokes the operation
exactly 3 times and returns the success value; with `retries: 1` it makes
exactly 2 invocations and re-raises exactly the error object of the second
invocation, not a wrapped exhaustion error. -/
theorem retry_budget_claim {α : Type} (v : α) (e0 e1 : ClassifiedError)
    (op : Nat → Except ClassifiedError α)
    (h0 : op 0 = .error e0) (h1 : op 1 = .error e1) (h2 : op 2 = .ok v) :
    retryRunCount op none 3 0 = (.ok v, 3) ∧
    retryRunCount op none 1 0 = (.error e1, 2) := by
  constructor <;> simp [retryRunCount, h0, h1, h2, retryable]

/-- Witness for C3 at a concrete fail-fail-succeed operation. -/
theorem retry_budget_claim_witness :
    retryRunCount
      (fun k => match k with
        | 0 => .error (.navigation "u" "navigation" "refused")
        | 1 => .error (.timeout "u" none "navigation" "slow")
        | _ => .ok (7 : Nat))
      none 3 0 = (.ok 7, 3) ∧
    retryRunCount
      (fun k => match k with
        | 0 => .error (.navigation "u" "navigation" "refused")
        | 1 => .error (.timeout "u" none "navigation" "slow")
        | _ => .ok (7 : Nat))
      none 1 0 = (.error (.timeout "u" none "navigation" "slow"), 2) :=
  retry_budget_claim 7 (.navigation "u" "navigation" "refused")
    (.timeout "u" none "navigation" "slow") _ rfl rfl rfl

/-- C4: with `retryOn: ['TimeoutError']`, an operation raising a
`NavigationError` is never retried: whatever the remaining retry budget, the
controller makes exactly one invocation and re-raises that `NavigationError`
to the caller. -/
theorem retry_on_filter_claim {α : Type} (op : Nat → Except ClassifiedError α)
    (url oper cse : String) (budget : Nat)
    (h0 : op 0 = .error (.navigation url oper cse)) :
    retryRunCount op (some ["TimeoutError"]) budget 0 =
      (.error (.navigation url oper cse), 1) := by
  cases budget <;>
    simp [retryRunCount, h0, retryable, ClassifiedError.name]

/-- Witness for C4 at a concrete always-failing operation and budget 5. -/
theorem retry_on_filter_claim_witness :
    @retryRunCount Nat
      (fun _ => .error (.navigation "u" "navigation" "refused"))
      (some ["TimeoutError"]) 5 0 =
      (.error (ClassifiedError.navigation "u" "navigation" "refused"), 1) :=
  retry_on_filter_claim _ "u" "navigation" "refused" 5 rfl

/-- The shape of a terminal result record: it carries its item's url, and
holds data exactly when successful, an error message and error name exactly
when failed. -/
theorem toResult_shape (cfg : BatchConfig)
    (out : Except ClassifiedError (List Value) × Nat) :
    (toResult cfg out).url = cfg.url ∧
    ((toResult cfg out).success = true →
      (toResult cfg out).data.isSome ∧ (toResult cfg out).error = none ∧
      (toResult cfg out).errorName = none) ∧
    ((toResult cfg out).success = false →
      (toResult cfg out).data = none ∧ (toResult cfg out).error.isSome ∧
      (toResult cfg out).errorName.isSome) := by
  obtain ⟨res, dur⟩ := out
  cases res <;> simp [toResult]

/-- C1: `harvestBatch` returns exactly one result record per input config,
aligned with the input order — the `i`-th record is the terminal record of
the `i`-th config and carries its url — and each record has the documented
shape: `success` together with `duration`, with `data` present exactly on
success and the error message and error name present exactly on failure. -/
theorem batch_alignment_claim (configs : List BatchConfig)
    (run : BatchConfig → Except ClassifiedError (List Value) × Nat) :
    (harvestBatch configs run).length = configs.length ∧
    ∀ i, i < configs.length →
      ∃ cfg r, configs[i]? = some cfg ∧
        (harvestBatch configs run)[i]? = some r ∧
        r = toResult cfg (run cfg) ∧
        r.url = cfg.url ∧
        (r.success = true →
          r.data.isSome ∧ r.error = none ∧ r.errorName = none) ∧
        (r.success = false →
          r.data = none ∧ r.error.isSome ∧ r.errorName.isSome) := by
  refine ⟨by simp [harvestBatch], fun i hi => ?_⟩
  have h1 : configs[i]? = some configs[i] := List.getElem?_eq_getElem hi
  refine ⟨configs[i], toResult configs[i] (run configs[i]), h1, ?_, rfl,
    toResult_shape _ _⟩
  simp [harvestBatch, List.getElem?_map, h1]

/-- Witness for C1 on a concrete one-item batch. -/
theorem batch_alignment_claim_witness :
    ∃ cfg r, [BatchConfig.mk "u0" ".c" none][0]? = some cfg ∧
      (harvestBatch [BatchConfig.mk "u0" ".c" none]
        (fun _ => (.ok [], 3)))[0]? = some r ∧
      r = toResult cfg ((fun _ => (.ok [], 3)) cfg) ∧
      r.url = cfg.url ∧
      (r.success = true →
        r.data.isSome ∧ r.error = none ∧ r.errorName = none) ∧
      (r.success = false →
        r.data = none ∧ r.error.isSome ∧ r.errorName.isSome) :=
  (batch_alignment_claim [BatchConfig.mk "u0" ".c" none]
    (fun _ => (.ok [], 3))).2 0 (by norm_num)

/-- The 10-item batch of the batch-scheduler scenario: items 2, 5 and 8
always fail, the others succeed. -/
def demoConfigs : List BatchConfig :=
  [⟨"u0", ".c", none⟩, ⟨"u1", ".c", none⟩, ⟨"u2", ".c", none⟩,
   ⟨"u3", ".c", none⟩, ⟨"u4", ".c", none⟩, ⟨"u5", ".c", none⟩,
   ⟨"u6", ".c", none⟩, ⟨"u7", ".c", none⟩, ⟨"u8", ".c", none⟩,
   ⟨"u9", ".c", none⟩]

/-- The per-item terminal outcomes for the scenario: items `u2`, `u5` and
`u8` always fail with a navigation error, all others succeed. -/
def demoRun (c : BatchConfig) : Except ClassifiedError (List Value) × Nat :=
  if c.url = "u2" ∨ c.url = "u5" ∨ c.url = "u8" then
    (.error (.navigation c.url "navigation" "refused"), 5)
  else (.ok [], 5)

/-- Closed form of the batch scheduler's progress-callback fold: starting
from completed count `c`, processing the remaining items appends one event
per item with consecutive completed counts. -/
theorem progress_foldl_eq (total : Nat) (order : List Nat) :
    ∀ (c : Nat) (acc : List (Nat × Nat)),
      order.foldl
        (fun (a : Nat × List (Nat × Nat)) _ => (a.1 + 1, a.2 ++ [(a.1 + 1, total)]))
        (c, acc)
      = (c + order.length,
         acc ++ (List.range order.length).map fun k => (c + k + 1, total)) := by
  induction order with
  | nil => intro c acc; simp
  | cons hd tl ih =>
      intro c acc
      rw [List.foldl_cons, ih]
      have hfun : (fun k => (c + 1 + k + 1, total)) =
          (fun k => (c + (k + 1) + 1, total)) := by
        funext k
        simp only [Prod.mk.injEq]
        refine ⟨by omega, by simp⟩
      simp only [List.length_cons, List.range_succ_eq_map, List.map_cons,
        List.map_map, Function.comp_def, Nat.succ_eq_add_one,
        List.append_assoc, List.singleton_append, Prod.mk.injEq]
      refine ⟨by omega, ?_⟩
      rw [hfun]

/-- The full list of `(completed, total)` progress-callback arguments is
`(1, total), (2, total), …, (n, total)` whatever the completion order. -/
theorem progressEvents_eq (order : List Nat) (total : Nat) :
    progressEvents order total =
      (List.range order.length).map fun k => (k + 1, total) := by
  unfold progressEvents
  rw [progress_foldl_eq]
  simp

/-- C5: on the 10-item batch where items 2, 5 and 8 always fail,
`harvestBatch` returns 10 result records, 7 successful and 3 failed (no
failure aborts or skips another item), and whatever order the items complete
in, `onProgress` fires exactly 10 times with non-decreasing completed counts
ending at 10. -/
theorem batch_isolation_progress_claim (order : List Nat)
    (h : order.length = 10) :
    (harvestBatch demoConfigs demoRun).length = 10 ∧
    ((harvestBatch demoConfigs demoRun).filter (fun r => r.success)).length = 7 ∧
    ((harvestBatch demoConfigs demoRun).filter (fun r => !r.success)).length = 3 ∧
    (progressEvents order 10).length = 10 ∧
    List.Pairwise (fun a b => a.1 ≤ b.1) (progressEvents order 10) ∧
    (progressEvents order 10).getLast? = some (10, 10) := by
  have he : progressEvents order 10 = (List.range 10).map fun k => (k + 1, 10) := by
    rw [progressEvents_eq, h]
  refine ⟨by decide, by decide, by decide, ?_, ?_, ?_⟩ <;> rw [he] <;> decide

/-- Witness for C5 at the identity completion order. -/
theorem batch_isolation_progress_claim_witness :
    ((harvestBatch demoConfigs demoRun).filter (fun r => r.success)).length = 7 ∧
    (progressEvents [0, 1, 2, 3, 4, 5, 6, 7, 8, 9] 10).getLast? = some (10, 10) :=
  ⟨(batch_isolation_progress_claim [0, 1, 2, 3, 4, 5, 6, 7, 8, 9] rfl).2.1,
   (batch_isolation_progress_claim [0, 1, 2, 3, 4, 5, 6, 7, 8, 9] rfl).2.2.2.2.2⟩

/-- Draining a bucket at one instant: with at least `k` whole tokens on
hand (and a balance within capacity), `k` back-to-back admission checks all
succeed, each spending one token. -/
theorem tryAcquireMany_drain (cap rate now : ℚ) :
    ∀ (k : Nat) (tok : ℚ), (k : ℚ) ≤ tok → tok ≤ cap →
      Bucket.tryAcquireMany ⟨cap, rate, tok, now⟩ now k =
        some ⟨cap, rate, tok - (k : ℚ), now⟩ := by
  intro k
  induction k with
  | zero => intro tok h1 h2; simp [Bucket.tryAcquireMany]
  | succ n ih =>
      intro tok h1 h2
      have hcast : ((n : ℚ)) + 1 ≤ tok := by push_cast at h1 ⊢; linarith
      have hk : (1 : ℚ) ≤ tok := by
        have : (0 : ℚ) ≤ (n : ℚ) := Nat.cast_nonneg n
        linarith
      have hstep : Bucket.tryAcquire ⟨cap, rate, tok, now⟩ now =
          some ⟨cap, rate, tok - 1, now⟩ := by
        simp [Bucket.tryAcquire, Bucket.refill, min_eq_right h2, hk]
      have hrec := ih (tok - 1) (by linarith) (by linarith)
      rw [Bucket.tryAcquireMany, hstep]
      rw [show (Option.some ⟨cap, rate, tok - 1, now⟩).bind
            (fun b => Bucket.tryAcquireMany b now n) =
          Bucket.tryAcquireMany ⟨cap, rate, tok - 1, now⟩ now n from rfl, hrec]
      have : tok - 1 - (n : ℚ) = tok - ((n : ℚ) + 1) := by ring
      rw [this]
      push_cast
      ring_nf

/-- Peeling an admission check off the back of a sequence: `n + 1`
back-to-back checks are `n` checks followed by one more on the resulting
state. -/
theorem tryAcquireMany_succ (now : ℚ) :
    ∀ (n : Nat) (b : Bucket), b.tryAcquireMany now (n + 1) =
      (b.tryAcquireMany now n).bind fun b2 => b2.tryAcquire now := by
  intro n
  induction n with
  | zero =>
      intro b
      cases h : b.tryAcquire now <;>
        simp [Bucket.tryAcquireMany, h]
  | succ m ih =>
      intro b
      cases h : b.tryAcquire now with
      | none => simp [Bucket.tryAcquireMany, h]
      | some b2 =>
          have hpeel : b.tryAcquireMany now (m + 1 + 1) =
              b2.tryAcquireMany now (m + 1) := by
            simp [Bucket.tryAcquireMany, h]
          have hpeel2 : b.tryAcquireMany now (m + 1) =
              b2.tryAcquireMany now m := by
            simp [Bucket.tryAcquireMany, h]
          rw [hpeel, ih b2, hpeel2]

/-- C8: for a bucket of capacity `N` (refilling at `rate > 0` tokens per
ms), `N` acquires with zero elapsed time are all admitted immediately and
empty the bucket; the `(N+1)`-th acquire at zero elapsed time is not
admitted (it suspends); it is admitted at elapsed time `t` precisely when at
least one refill interval `1/rate` has passed; and from any bucket state an
acquire always eventually succeeds — some later instant admits it. -/
theorem rate_limiter_claim (N : ℕ) (hN : 1 ≤ N) (rate : ℚ) (hrate : 0 < rate) :
    ((fullBucket N rate).tryAcquireMany 0 N =
      some ⟨(N : ℚ), rate, 0, 0⟩) ∧
    (Bucket.tryAcquire ⟨(N : ℚ), rate, 0, 0⟩ 0 = none) ∧
    ((fullBucket N rate).tryAcquireMany 0 (N + 1) = none) ∧
    (∀ t : ℚ, 0 ≤ t →
      ((Bucket.tryAcquire ⟨(N : ℚ), rate, 0, 0⟩ t).isSome ↔ 1 / rate ≤ t)) ∧
    (∀ b : Bucket, 0 < b.refillRate → 1 ≤ b.capacity →
      ∃ t : ℚ, (b.tryAcquire t).isSome) := by
  have hNq : (1 : ℚ) ≤ (N : ℚ) := by exact_mod_cast hN
  have hdrain : (fullBucket N rate).tryAcquireMany 0 N =
      some ⟨(N : ℚ), rate, 0, 0⟩ := by
    have h := tryAcquireMany_drain (N : ℚ) rate 0 N (N : ℚ) le_rfl le_rfl
    rw [show fullBucket N rate = ⟨(N : ℚ), rate, (N : ℚ), 0⟩ from rfl, h]
    norm_num
  have hstuck : Bucket.tryAcquire ⟨(N : ℚ), rate, 0, 0⟩ 0 = none := by
    simp [Bucket.tryAcquire, Bucket.refill, min_eq_right (le_trans zero_le_one hNq)]
  refine ⟨hdrain, hstuck, ?_, ?_, ?_⟩
  · rw [tryAcquireMany_succ, hdrain]
    simp [hstuck]
  · intro t ht
    have hmin : (Bucket.refill ⟨(N : ℚ), rate, 0, 0⟩ t).tokens =
        min (N : ℚ) (t * rate) := by
      simp [Bucket.refill]
    by_cases hc : (1 : ℚ) ≤ min (N : ℚ) (t * rate)
    · have h2 : (1 : ℚ) ≤ t * rate := le_trans hc (min_le_right _ _)
      have hdiv : 1 / rate ≤ t := by
        rw [div_le_iff₀ hrate]
        linarith
      simp [Bucket.tryAcquire, Bucket.refill, hc]
      rw [inv_eq_one_div]
      exact hdiv
    · have h2 : ¬(1 : ℚ) ≤ t * rate := by
        intro hle
        exact hc (le_min hNq hle)
      have hdiv : ¬(1 / rate ≤ t) := by
        intro hle
        rw [div_le_iff₀ hrate] at hle
        exact h2 (by linarith)
      simp [Bucket.tryAcquire, Bucket.refill, hc]
      rw [inv_eq_one_div]
      exact not_le.mp hdiv
  · intro b hb hcap
    refine ⟨b.lastRefill + (1 + max 0 (1 - b.tokens)) / b.refillRate, ?_⟩
    have hcancel : (1 + max 0 (1 - b.tokens)) / b.refillRate * b.refillRate =
        1 + max 0 (1 - b.tokens) :=
      div_mul_cancel₀ _ (ne_of_gt hb)
    have hbig : (1 : ℚ) ≤ b.tokens + (1 + max 0 (1 - b.tokens)) := by
      have := le_max_right (0 : ℚ) (1 - b.tokens)
      linarith
    simp only [Bucket.tryAcquire, Bucket.refill, add_sub_cancel_left]
    rw [hcancel]
    rw [if_pos (le_min hcap hbig)]
    simp

/-- Witness for C8 with a bucket of capacity 2 refilling one token per ms. -/
theorem rate_limiter_claim_witness :
    ((fullBucket 2 1).tryAcquireMany 0 2 =
      some ⟨((2 : ℕ) : ℚ), 1, 0, 0⟩) ∧
    (Bucket.tryAcquire ⟨((2 : ℕ) : ℚ), 1, 0, 0⟩ 0 = none) ∧
    ((fullBucket 2 1).tryAcquireMany 0 3 = none) ∧
    (∀ t : ℚ, 0 ≤ t →
      ((Bucket.tryAcquire ⟨((2 : ℕ) : ℚ), 1, 0, 0⟩ t).isSome ↔ 1 / 1 ≤ t)) ∧
    (∀ b : Bucket, 0 < b.refillRate → 1 ≤ b.capacity →
      ∃ t : ℚ, (b.tryAcquire t).isSome) :=
  rate_limiter_claim 2 (by norm_num) 1 (by norm_num)

end DomHarvest
